import Mathlib

/-!
# Verification of the WSL builtin dataset registration module

A shallow embedding of `wsl/data/datasets/builtin.py`: the builtin split
tables, the five family registration routines, and the module bootstrap.
The dataset/metadata catalogs and the format-adapter registration entry
points live outside this repository; they are modelled from the spec
(§4.1, §4.2, §6), as marked on each such definition.
-/

set_option autoImplicit false

namespace WSLDatasets

/-! ## String helpers

Executable counterparts of the Python string operations used by the
source: substring containment (`"://" in s`), `os.path.join`, and
`str.replace`. -/

/-- `isPrefixCh pat s` is true when the character list `pat` is a prefix of `s`. -/
def isPrefixCh : List Char → List Char → Bool
  | [], _ => true
  | _ :: _, [] => false
  | a :: as, b :: bs => a == b && isPrefixCh as bs

/-- `isInfixCh pat s` is true when `pat` occurs as a contiguous sublist of `s`. -/
def isInfixCh (pat : List Char) : List Char → Bool
  | [] => isPrefixCh pat []
  | c :: rest => isPrefixCh pat (c :: rest) || isInfixCh pat rest

/-- Python's `pat in s` substring test. -/
def strContains (s pat : String) : Bool :=
  isInfixCh pat.data s.data

/-- `os.path.join a b` for two components: an absolute `b` replaces `a`;
otherwise `b` is appended to `a`, inserting a separator unless `a` is empty
or already ends in one. -/
def osPathJoin (a b : String) : String :=
  if isPrefixCh ['/'] b.data then b
  else if a = "" then b
  else if a.data.getLast? = some '/' then a ++ b
  else a ++ "/" ++ b

/-- Fuel-indexed worker for `strReplace`: replaces occurrences of `pat`
left to right, non-overlapping, as Python's `str.replace` does. The fuel
is the length of the remaining input, which each step strictly consumes. -/
def replaceChAux (pat repl : List Char) : Nat → List Char → List Char
  | _, [] => []
  | 0, s => s
  | fuel + 1, c :: rest =>
    if pat ≠ [] ∧ isPrefixCh pat (c :: rest) = true then
      repl ++ replaceChAux pat repl fuel ((c :: rest).drop pat.length)
    else
      c :: replaceChAux pat repl fuel rest

/-- Python's `s.replace(pat, repl)` (all occurrences, left to right). -/
def strReplace (s pat repl : String) : String :=
  ⟨replaceChAux pat.data repl.data s.data.length s.data⟩

/-! ## Registry data model -/

/-- The registration-time failure taxonomy of spec §7. -/
inductive RegError where
  | DuplicateRegistration
  | MetadataConflict
  | MissingPairedMetadata
  | UnknownDataset
  deriving DecidableEq, Repr

/-- A loader binding, represented as a tagged value recording the format
adapter and the resolved paths it closes over (spec §9 "lazy
loader-as-closure" note). Equality of loaders is equality of these tags. -/
inductive Loader where
  | cocoInstances (jsonFile imageRoot : String)
  | panopticSeparated (imageRoot panopticRoot panopticJson semanticRoot instancesJson : String)
  | panopticStandard (imageRoot panopticRoot panopticJson instancesJson : String)
  | pascalVoc (dirname split : String) (year : Nat)
  deriving DecidableEq, Repr

/-- Association-list lookup by string key (first match wins). -/
def alookup {α : Type} (k : String) : List (String × α) → Option α
  | [] => none
  | (k', v) :: rest => if k' = k then some v else alookup k rest

/-- Replace (or append) the entry for key `n` in an association list. -/
def aset {α : Type} (n : String) (v : α) : List (String × α) → List (String × α)
  | [] => [(n, v)]
  | (m, w) :: rest => if m = n then (n, v) :: rest else (m, w) :: aset n v rest

/-- A metadata record: a per-name mapping of attribute keys to values. -/
abbrev MetadataRecord := List (String × String)

/-- The process-wide registry state: the dataset catalog (name → loader)
and the metadata catalog (name → record). -/
structure RegState where
  catalog : List (String × Loader)
  metadata : List (String × MetadataRecord)
  deriving DecidableEq, Repr

/-- The empty registry state at process start. -/
def emptyState : RegState := ⟨[], []⟩

/-- Modelled from the spec: `DatasetCatalog.register(name, loader)` (§4.1)
stores the binding; duplicate registration with a different loader fails
with `DuplicateRegistration`, with the same loader it is a no-op. -/
def dsRegister (st : RegState) (n : String) (l : Loader) : Except RegError RegState :=
  match alookup n st.catalog with
  | some l' => if l' = l then .ok st else .error .DuplicateRegistration
  | none => .ok { st with catalog := st.catalog ++ [(n, l)] }

/-- Modelled from the spec: `DatasetCatalog.get(name)` (§4.1) returns the
stored callable or fails with `UnknownDataset`. -/
def dsGet (st : RegState) (n : String) : Except RegError Loader :=
  match alookup n st.catalog with
  | some l => .ok l
  | none => .error .UnknownDataset

/-- Modelled from the spec: `MetadataCatalog.get(name)` (§4.2) with
get-or-create semantics — an unregistered name reads as an empty record. -/
def metaRecord (st : RegState) (n : String) : MetadataRecord :=
  (alookup n st.metadata).getD []

/-- Modelled from the spec: `MetadataCatalog` `set(name, key, value)`
(§4.2): fails with `MetadataConflict` when `key` already holds a different
value for `name`, is a silent no-op when the value is identical, and
writes normally when the key was unset. -/
def metaSet (st : RegState) (n k v : String) : Except RegError RegState :=
  let r := metaRecord st n
  match alookup k r with
  | some v' => if v' = v then .ok st else .error .MetadataConflict
  | none => .ok { st with metadata := aset n (r ++ [(k, v)]) st.metadata }

/-- Modelled from the spec: the bulk metadata-merge variant (§4.2) applies
the per-key conflict rule to every entry of a metadata dict. -/
def metaMerge (st : RegState) (n : String) (kvs : List (String × String)) :
    Except RegError RegState :=
  kvs.foldlM (fun st kv => metaSet st n kv.1 kv.2) st

/-- Modelled from the spec: `builtin_metadata_for(key)` (§6), the static
provider of default metadata per family/dataset key (`_get_builtin_metadata`
in `builtin_meta.py`, not under src). Its exact contents are opaque to the
registry; we model it as a one-entry dict tagged with the key. -/
def getBuiltinMetadata (key : String) : List (String × String) :=
  [("family", key)]

/-! ## Format adapter registration entry points

These live in detectron2 (not under src); modelled from spec §6. -/

/-- Modelled from the spec: `register_plain_instances(name, metadata,
json_path, image_root)` (§6) — registers one name/loader/metadata triple
for flat detection-style JSON; the instance routine populates `image_root`
and `json_file` on the record (§3, PanopticPairing). -/
def register_coco_instances (name : String) (md : List (String × String))
    (jsonFile imageRoot : String) (st : RegState) : Except RegError RegState := do
  let st ← dsRegister st name (.cocoInstances jsonFile imageRoot)
  let st ← metaMerge st name md
  let st ← metaSet st name "json_file" jsonFile
  metaSet st name "image_root" imageRoot

/-- Modelled from the spec: `register_panoptic_separated(name, metadata,
image_root, panoptic_root, panoptic_json, semantic_root, instances_json)`
(§6) — registers a second, independent dataset name (§4.4 "Separated")
whose metadata record has `semantic_root` set. -/
def register_coco_panoptic_separated (name : String) (md : List (String × String))
    (imageRoot panopticRoot panopticJson semanticRoot instancesJson : String)
    (st : RegState) : Except RegError RegState := do
  let sepName := name ++ "_separated"
  let st ← dsRegister st sepName
    (.panopticSeparated imageRoot panopticRoot panopticJson semanticRoot instancesJson)
  let st ← metaMerge st sepName md
  let st ← metaSet st sepName "image_root" imageRoot
  let st ← metaSet st sepName "panoptic_root" panopticRoot
  let st ← metaSet st sepName "panoptic_json" panopticJson
  let st ← metaSet st sepName "semantic_root" semanticRoot
  metaSet st sepName "json_file" instancesJson

/-- Modelled from the spec: `register_panoptic_standard(name, metadata,
image_root, panoptic_root, panoptic_json, instances_json)` (§6) —
registers the unified panoptic record format under the split name itself,
without a separate semantic root (§4.4 "Standard"). -/
def register_coco_panoptic (name : String) (md : List (String × String))
    (imageRoot panopticRoot panopticJson instancesJson : String)
    (st : RegState) : Except RegError RegState := do
  let st ← dsRegister st name
    (.panopticStandard imageRoot panopticRoot panopticJson instancesJson)
  let st ← metaMerge st name md
  let st ← metaSet st name "image_root" imageRoot
  let st ← metaSet st name "panoptic_root" panopticRoot
  let st ← metaSet st name "panoptic_json" panopticJson
  metaSet st name "json_file" instancesJson

/-- Modelled from the spec: `register_voc(name, dir_root, split, year)`
(§6) — registers a Pascal-VOC XML-backed split. -/
def register_pascal_voc (name dirname split : String) (year : Nat)
    (st : RegState) : Except RegError RegState :=
  dsRegister st name (.pascalVoc dirname split year)

/-! ## Builtin split tables (from `builtin.py`) -/

/-- The `SPLITS` table of `register_all_pascal_voc`: (name, dirname, split). -/
def pascalVocSPLITS : List (String × String × String) :=
  [("voc_2007_trainval", "VOC2007", "trainval"),
   ("voc_2007_train", "VOC2007", "train"),
   ("voc_2007_val", "VOC2007", "val"),
   ("voc_2007_test", "VOC2007", "test"),
   ("voc_2012_trainval", "VOC2012", "trainval"),
   ("voc_2012_train", "VOC2012", "train"),
   ("voc_2012_val", "VOC2012", "val"),
   ("voc_2012_test", "VOC2012", "test")]

/-- `_PREDEFINED_SPLITS_WEB`: dataset name → (key → (image_root, json_file)). -/
def _PREDEFINED_SPLITS_WEB : List (String × List (String × String × String)) :=
  [("flickr",
    [("flickr_voc", "flickr_voc/images", "flickr_voc/images_d2.json"),
     ("flickr_coco", "flickr_coco/images", "flickr_coco/images_d2.json")])]

/-- `_PREDEFINED_SPLITS_VOC_PGT`: dataset name → (key → (image_root, json_file)). -/
def _PREDEFINED_SPLITS_VOC_PGT : List (String × List (String × String × String)) :=
  [("voc_2007_pgt",
    [("voc_2007_train_pgt", "VOC2007/JPEGImages",
      "VOC2007/../results/VOC2007/Main/voc_2007_train_pgt.json"),
     ("voc_2007_val_pgt", "VOC2007/JPEGImages",
      "VOC2007/../results/VOC2007/Main/voc_2007_val_pgt.json")])]

/-- `_PREDEFINED_SPLITS_VOC_SBD`: key → (image_root, json_file). -/
def _PREDEFINED_SPLITS_VOC_SBD : List (String × String × String) :=
  [("voc_2012_train_instance", "VOC_SBD/images",
    "VOC_SBD/annotations/voc_2012_train_instance.json"),
   ("voc_2012_val_instance", "VOC_SBD/images",
    "VOC_SBD/annotations/voc_2012_val_instance.json"),
   ("sbd_9118_instance", "VOC_SBD/images",
    "VOC_SBD/annotations/sbd_9118_instance.json"),
   ("voc_2012_train_instance_pgt", "VOC_SBD/images",
    "VOC_SBD/annotations/voc_2012_train_instance_pgt.json"),
   ("sbd_9118_instance_pgt", "VOC_SBD/images",
    "VOC_SBD/annotations/sbd_9118_instance_pgt.json")]

/-- `_PREDEFINED_SPLITS_VOC_SBD_PANOPTIC`: key →
(panoptic_root, panoptic_json, semantic_root). -/
def _PREDEFINED_SPLITS_VOC_SBD_PANOPTIC : List (String × String × String × String) :=
  [("voc_2012_train_panoptic", "VOC_SBD/annotations/panoptic",
    "VOC_SBD/annotations/voc_2012_train_panoptic.json",
    "VOC_SBD/annotations/panoptic_stuff"),
   ("voc_2012_val_panoptic", "VOC_SBD/annotations/panoptic",
    "VOC_SBD/annotations/voc_2012_val_panoptic.json",
    "VOC_SBD/annotations/panoptic_stuff"),
   ("sbd_9118_panoptic", "VOC_SBD/annotations/panoptic",
    "VOC_SBD/annotations/sbd_9118_panoptic.json",
    "VOC_SBD/annotations/panoptic_stuff")]

/-- `_PREDEFINED_SPLITS_VOC_JSON`: key → (image_root, json_file). -/
def _PREDEFINED_SPLITS_VOC_JSON : List (String × String × String) :=
  [("voc_2007_train_json", "VOC2007/JPEGImages/", "PASCAL_VOC/pascal_train2007_d2.json"),
   ("voc_2007_val_json", "VOC2007/JPEGImages/", "PASCAL_VOC/pascal_val2007_d2.json"),
   ("voc_2007_test_json", "VOC2007/JPEGImages/", "PASCAL_VOC/pascal_test2007_d2.json"),
   ("voc_2012_train_json", "VOC2012/JPEGImages/", "PASCAL_VOC/pascal_train2012_d2.json"),
   ("voc_2012_val_json", "VOC2012/JPEGImages/", "PASCAL_VOC/pascal_val2012_d2.json")]

/-! ## Family registration routines (from `builtin.py`) -/

/-- The year inference of `register_all_pascal_voc` (line 56):
`year = 2007 if "2007" in name else 2012`. -/
def inferYear (name : String) : Nat :=
  if strContains name "2007" then 2007 else 2012

/-- `register_all_pascal_voc(root)` (lines 44-58): for each table entry,
delegate to `register_pascal_voc` with the root-joined directory, the
split, and the inferred year, then set `evaluator_type = "pascal_voc"`. -/
def register_all_pascal_voc (root : String) (st : RegState) : Except RegError RegState :=
  pascalVocSPLITS.foldlM
    (fun st e => do
      let (name, dirname, split) := e
      let st ← register_pascal_voc name (osPathJoin root dirname) split (inferYear name) st
      metaSet st name "evaluator_type" "pascal_voc")
    st

/-- Resolution of the annotation (json) path in the coco-style routines
(lines 77, 104, 150, 216): `os.path.join(root, json_file) if "://" not in
json_file else json_file`. -/
def resolveJsonPath (root jsonFile : String) : String :=
  if strContains jsonFile "://" then jsonFile else osPathJoin root jsonFile

/-- Resolution of the image root in the coco-style routines (lines 78,
105, 151, 217): always `os.path.join(root, image_root)`. -/
def resolveImagePath (root imageRoot : String) : String :=
  osPathJoin root imageRoot

/-- The common loop body of the coco-style routines: register `key` with
the family metadata for `metaKey` and the resolved annotation and image
paths. -/
def registerCocoEntry (root metaKey key imageRoot jsonFile : String)
    (st : RegState) : Except RegError RegState :=
  register_coco_instances key (getBuiltinMetadata metaKey)
    (resolveJsonPath root jsonFile) (resolveImagePath root imageRoot) st

/-- `register_all_web(root)` (lines 70-79): metadata is keyed by the split
key itself. -/
def register_all_web (root : String) (st : RegState) : Except RegError RegState :=
  _PREDEFINED_SPLITS_WEB.foldlM
    (fun st ds =>
      ds.2.foldlM
        (fun st e => registerCocoEntry root e.1 e.1 e.2.1 e.2.2 st)
        st)
    st

/-- `register_all_voc_pgt(root)` (lines 97-106): metadata is keyed by the
dataset name of the outer table. -/
def register_all_voc_pgt (root : String) (st : RegState) : Except RegError RegState :=
  _PREDEFINED_SPLITS_VOC_PGT.foldlM
    (fun st ds =>
      ds.2.foldlM
        (fun st e => registerCocoEntry root ds.1 e.1 e.2.1 e.2.2 st)
        st)
    st

/-- The panoptic loop body of `register_all_voc_sbd` (lines 154-181):
derive the paired instance name by replacing `"_panoptic"` with
`"_instance"`, read `image_root` and `json_file` from the paired instance
record, then perform both the separated and the standard registration.
The failure branch is modelled from the spec (§4.4): when the paired
record lacks `image_root` or `json_file` the step fails with
`MissingPairedMetadata`. -/
def registerVocSbdPanopticEntry (root pfx panopticRoot panopticJson semanticRoot : String)
    (st : RegState) : Except RegError RegState := do
  let pfxInstances := strReplace pfx "_panoptic" "_instance"
  let r := metaRecord st pfxInstances
  match alookup "image_root" r, alookup "json_file" r with
  | some imageRoot, some instancesJson => do
    let st ← register_coco_panoptic_separated pfx
      (getBuiltinMetadata "voc_sbd_panoptic_separated")
      imageRoot (osPathJoin root panopticRoot) (osPathJoin root panopticJson)
      (osPathJoin root semanticRoot) instancesJson st
    register_coco_panoptic pfx
      (getBuiltinMetadata "voc_sbd_panoptic_standard")
      imageRoot (osPathJoin root panopticRoot) (osPathJoin root panopticJson)
      instancesJson st
  | _, _ => .error .MissingPairedMetadata

/-- The first loop of `register_all_voc_sbd` (lines 145-152): register
every instance split of `_PREDEFINED_SPLITS_VOC_SBD`. -/
def vocSbdInstancePhase (root : String) (st : RegState) : Except RegError RegState :=
  _PREDEFINED_SPLITS_VOC_SBD.foldlM
    (fun st e => registerCocoEntry root "voc_sbd" e.1 e.2.1 e.2.2 st)
    st

/-- The second loop of `register_all_voc_sbd` (lines 154-181): register
every panoptic split of `_PREDEFINED_SPLITS_VOC_SBD_PANOPTIC`. -/
def vocSbdPanopticPhase (root : String) (st : RegState) : Except RegError RegState :=
  _PREDEFINED_SPLITS_VOC_SBD_PANOPTIC.foldlM
    (fun st e => registerVocSbdPanopticEntry root e.1 e.2.1 e.2.2.1 e.2.2.2 st)
    st

/-- `register_all_voc_sbd(root)` (lines 144-181): the whole instance loop
runs before the panoptic loop starts. -/
def register_all_voc_sbd (root : String) (st : RegState) : Except RegError RegState := do
  let st ← vocSbdInstancePhase root st
  vocSbdPanopticPhase root st

/-- `register_all_voc_json(root)` (lines 210-218). -/
def register_all_voc_json (root : String) (st : RegState) : Except RegError RegState :=
  _PREDEFINED_SPLITS_VOC_JSON.foldlM
    (fun st e => registerCocoEntry root "voc_json" e.1 e.2.1 e.2.2 st)
    st

/-- A registry state holding nothing but one instance split's metadata
record with `image_root` and `json_file` populated: the minimal
precondition state of a panoptic registration step. -/
def pairedOnlyState (pfxInstances imageRoot jsonFile : String) : RegState :=
  ⟨[], [(pfxInstances, [("image_root", imageRoot), ("json_file", jsonFile)])]⟩

/-- All (key, image fragment, json fragment) triples the coco-style
routines consume, flattened from the four builtin tables that use the
conditional json-path resolution. -/
def allCocoEntries : List (String × String × String) :=
  (_PREDEFINED_SPLITS_WEB.flatMap (fun ds => ds.2)) ++
    (_PREDEFINED_SPLITS_VOC_PGT.flatMap (fun ds => ds.2)) ++
    _PREDEFINED_SPLITS_VOC_SBD ++ _PREDEFINED_SPLITS_VOC_JSON

/-- The stored annotation-source (json) fragments of all builtin tables. -/
def allCocoJsonFragments : List String :=
  allCocoEntries.map (fun e => e.2.2)

/-! ## Bootstrap (lines 223-229) -/

/-- The dataset root resolution of the bootstrap:
`os.getenv("WSL_DATASETS", "datasets")`. -/
def bootstrapRoot (env : String → Option String) : String :=
  (env "WSL_DATASETS").getD "datasets"

/-- The module bootstrap in standalone mode (lines 223-229): resolve the
root from the environment and run the five family registration routines
in source order, once each, on the initially empty process state. -/
def bootstrap (env : String → Option String) : Except RegError RegState := do
  let root := bootstrapRoot env
  let st ← register_all_pascal_voc root emptyState
  let st ← register_all_web root st
  let st ← register_all_voc_pgt root st
  let st ← register_all_voc_sbd root st
  register_all_voc_json root st

/-! ## Explicit registration-chain states

The registry states reached by the bootstrap chain, written out so that
the run lemmas below can be stated and used cheaply. -/

/-- The registry state after `register_all_pascal_voc` on the empty state. -/
def pascalState (root : String) : RegState :=
  ⟨[("voc_2007_trainval", .pascalVoc (osPathJoin root "VOC2007") "trainval" 2007),
    ("voc_2007_train", .pascalVoc (osPathJoin root "VOC2007") "train" 2007),
    ("voc_2007_val", .pascalVoc (osPathJoin root "VOC2007") "val" 2007),
    ("voc_2007_test", .pascalVoc (osPathJoin root "VOC2007") "test" 2007),
    ("voc_2012_trainval", .pascalVoc (osPathJoin root "VOC2012") "trainval" 2012),
    ("voc_2012_train", .pascalVoc (osPathJoin root "VOC2012") "train" 2012),
    ("voc_2012_val", .pascalVoc (osPathJoin root "VOC2012") "val" 2012),
    ("voc_2012_test", .pascalVoc (osPathJoin root "VOC2012") "test" 2012)],
   [("voc_2007_trainval",
      [("evaluator_type", "pascal_voc")]),
    ("voc_2007_train",
      [("evaluator_type", "pascal_voc")]),
    ("voc_2007_val",
      [("evaluator_type", "pascal_voc")]),
    ("voc_2007_test",
      [("evaluator_type", "pascal_voc")]),
    ("voc_2012_trainval",
      [("evaluator_type", "pascal_voc")]),
    ("voc_2012_train",
      [("evaluator_type", "pascal_voc")]),
    ("voc_2012_val",
      [("evaluator_type", "pascal_voc")]),
    ("voc_2012_test",
      [("evaluator_type", "pascal_voc")])]⟩

/-- The registry state after `register_all_web` on `pascalState`. -/
def webState (root : String) : RegState :=
  ⟨[("voc_2007_trainval", .pascalVoc (osPathJoin root "VOC2007") "trainval" 2007),
    ("voc_2007_train", .pascalVoc (osPathJoin root "VOC2007") "train" 2007),
    ("voc_2007_val", .pascalVoc (osPathJoin root "VOC2007") "val" 2007),
    ("voc_2007_test", .pascalVoc (osPathJoin root "VOC2007") "test" 2007),
    ("voc_2012_trainval", .pascalVoc (osPathJoin root "VOC2012") "trainval" 2012),
    ("voc_2012_train", .pascalVoc (osPathJoin root "VOC2012") "train" 2012),
    ("voc_2012_val", .pascalVoc (osPathJoin root "VOC2012") "val" 2012),
    ("voc_2012_test", .pascalVoc (osPathJoin root "VOC2012") "test" 2012),
    ("flickr_voc", .cocoInstances (osPathJoin root "flickr_voc/images_d2.json") (osPathJoin root "flickr_voc/images")),
    ("flickr_coco", .cocoInstances (osPathJoin root "flickr_coco/images_d2.json") (osPathJoin root "flickr_coco/images"))],
   [("voc_2007_trainval",
      [("evaluator_type", "pascal_voc")]),
    ("voc_2007_train",
      [("evaluator_type", "pascal_voc")]),
    ("voc_2007_val",
      [("evaluator_type", "pascal_voc")]),
    ("voc_2007_test",
      [("evaluator_type", "pascal_voc")]),
    ("voc_2012_trainval",
      [("evaluator_type", "pascal_voc")]),
    ("voc_2012_train",
      [("evaluator_type", "pascal_voc")]),
    ("voc_2012_val",
      [("evaluator_type", "pascal_voc")]),
    ("voc_2012_test",
      [("evaluator_type", "pascal_voc")]),
    ("flickr_voc",
      [("family", "flickr_voc"), ("json_file", osPathJoin root "flickr_voc/images_d2.json"), ("image_root", osPathJoin root "flickr_voc/images")]),
    ("flickr_coco",
      [("family", "flickr_coco"), ("json_file", osPathJoin root "flickr_coco/images_d2.json"), ("image_root", osPathJoin root "flickr_coco/images")])]⟩

/-- The registry state after `register_all_voc_pgt` on `webState`. -/
def pgtState (root : String) : RegState :=
  ⟨[("voc_2007_trainval", .pascalVoc (osPathJoin root "VOC2007") "trainval" 2007),
    ("voc_2007_train", .pascalVoc (osPathJoin root "VOC2007") "train" 2007),
    ("voc_2007_val", .pascalVoc (osPathJoin root "VOC2007") "val" 2007),
    ("voc_2007_test", .pascalVoc (osPathJoin root "VOC2007") "test" 2007),
    ("voc_2012_trainval", .pascalVoc (osPathJoin root "VOC2012") "trainval" 2012),
    ("voc_2012_train", .pascalVoc (osPathJoin root "VOC2012") "train" 2012),
    ("voc_2012_val", .pascalVoc (osPathJoin root "VOC2012") "val" 2012),
    ("voc_2012_test", .pascalVoc (osPathJoin root "VOC2012") "test" 2012),
    ("flickr_voc", .cocoInstances (osPathJoin root "flickr_voc/images_d2.json") (osPathJoin root "flickr_voc/images")),
    ("flickr_coco", .cocoInstances (osPathJoin root "flickr_coco/images_d2.json") (osPathJoin root "flickr_coco/images")),
    ("voc_2007_train_pgt", .cocoInstances (osPathJoin root "VOC2007/../results/VOC2007/Main/voc_2007_train_pgt.json") (osPathJoin root "VOC2007/JPEGImages")),
    ("voc_2007_val_pgt", .cocoInstances (osPathJoin root "VOC2007/../results/VOC2007/Main/voc_2007_val_pgt.json") (osPathJoin root "VOC2007/JPEGImages"))],
   [("voc_2007_trainval",
      [("evaluator_type", "pascal_voc")]),
    ("voc_2007_train",
      [("evaluator_type", "pascal_voc")]),
    ("voc_2007_val",
      [("evaluator_type", "pascal_voc")]),
    ("voc_2007_test",
      [("evaluator_type", "pascal_voc")]),
    ("voc_2012_trainval",
      [("evaluator_type", "pascal_voc")]),
    ("voc_2012_train",
      [("evaluator_type", "pascal_voc")]),
    ("voc_2012_val",
      [("evaluator_type", "pascal_voc")]),
    ("voc_2012_test",
      [("evaluator_type", "pascal_voc")]),
    ("flickr_voc",
      [("family", "flickr_voc"), ("json_file", osPathJoin root "flickr_voc/images_d2.json"), ("image_root", osPathJoin root "flickr_voc/images")]),
    ("flickr_coco",
      [("family", "flickr_coco"), ("json_file", osPathJoin root "flickr_coco/images_d2.json"), ("image_root", osPathJoin root "flickr_coco/images")]),
    ("voc_2007_train_pgt",
      [("family", "voc_2007_pgt"), ("json_file", osPathJoin root "VOC2007/../results/VOC2007/Main/voc_2007_train_pgt.json"), ("image_root", osPathJoin root "VOC2007/JPEGImages")]),
    ("voc_2007_val_pgt",
      [("family", "voc_2007_pgt"), ("json_file", osPathJoin root "VOC2007/../results/VOC2007/Main/voc_2007_val_pgt.json"), ("image_root", osPathJoin root "VOC2007/JPEGImages")])]⟩

/-- The registry state after the VOC_SBD instance phase on `pgtState`. -/
def sbdInstState (root : String) : RegState :=
  ⟨[("voc_2007_trainval", .pascalVoc (osPathJoin root "VOC2007") "trainval" 2007),
    ("voc_2007_train", .pascalVoc (osPathJoin root "VOC2007") "train" 2007),
    ("voc_2007_val", .pascalVoc (osPathJoin root "VOC2007") "val" 2007),
    ("voc_2007_test", .pascalVoc (osPathJoin root "VOC2007") "test" 2007),
    ("voc_2012_trainval", .pascalVoc (osPathJoin root "VOC2012") "trainval" 2012),
    ("voc_2012_train", .pascalVoc (osPathJoin root "VOC2012") "train" 2012),
    ("voc_2012_val", .pascalVoc (osPathJoin root "VOC2012") "val" 2012),
    ("voc_2012_test", .pascalVoc (osPathJoin root "VOC2012") "test" 2012),
    ("flickr_voc", .cocoInstances (osPathJoin root "flickr_voc/images_d2.json") (osPathJoin root "flickr_voc/images")),
    ("flickr_coco", .cocoInstances (osPathJoin root "flickr_coco/images_d2.json") (osPathJoin root "flickr_coco/images")),
    ("voc_2007_train_pgt", .cocoInstances (osPathJoin root "VOC2007/../results/VOC2007/Main/voc_2007_train_pgt.json") (osPathJoin root "VOC2007/JPEGImages")),
    ("voc_2007_val_pgt", .cocoInstances (osPathJoin root "VOC2007/../results/VOC2007/Main/voc_2007_val_pgt.json") (osPathJoin root "VOC2007/JPEGImages")),
    ("voc_2012_train_instance", .cocoInstances (osPathJoin root "VOC_SBD/annotations/voc_2012_train_instance.json") (osPathJoin root "VOC_SBD/images")),
    ("voc_2012_val_instance", .cocoInstances (osPathJoin root "VOC_SBD/annotations/voc_2012_val_instance.json") (osPathJoin root "VOC_SBD/images")),
    ("sbd_9118_instance", .cocoInstances (osPathJoin root "VOC_SBD/annotations/sbd_9118_instance.json") (osPathJoin root "VOC_SBD/images")),
    ("voc_2012_train_instance_pgt", .cocoInstances (osPathJoin root "VOC_SBD/annotations/voc_2012_train_instance_pgt.json") (osPathJoin root "VOC_SBD/images")),
    ("sbd_9118_instance_pgt", .cocoInstances (osPathJoin root "VOC_SBD/annotations/sbd_9118_instance_pgt.json") (osPathJoin root "VOC_SBD/images"))],
   [("voc_2007_trainval",
      [("evaluator_type", "pascal_voc")]),
    ("voc_2007_train",
      [("evaluator_type", "pascal_voc")]),
    ("voc_2007_val",
      [("evaluator_type", "pascal_voc")]),
    ("voc_2007_test",
      [("evaluator_type", "pascal_voc")]),
    ("voc_2012_trainval",
      [("evaluator_type", "pascal_voc")]),
    ("voc_2012_train",
      [("evaluator_type", "pascal_voc")]),
    ("voc_2012_val",
      [("evaluator_type", "pascal_voc")]),
    ("voc_2012_test",
      [("evaluator_type", "pascal_voc")]),
    ("flickr_voc",
      [("family", "flickr_voc"), ("json_file", osPathJoin root "flickr_voc/images_d2.json"), ("image_root", osPathJoin root "flickr_voc/images")]),
    ("flickr_coco",
      [("family", "flickr_coco"), ("json_file", osPathJoin root "flickr_coco/images_d2.json"), ("image_root", osPathJoin root "flickr_coco/images")]),
    ("voc_2007_train_pgt",
      [("family", "voc_2007_pgt"), ("json_file", osPathJoin root "VOC2007/../results/VOC2007/Main/voc_2007_train_pgt.json"), ("image_root", osPathJoin root "VOC2007/JPEGImages")]),
    ("voc_2007_val_pgt",
      [("family", "voc_2007_pgt"), ("json_file", osPathJoin root "VOC2007/../results/VOC2007/Main/voc_2007_val_pgt.json"), ("image_root", osPathJoin root "VOC2007/JPEGImages")]),
    ("voc_2012_train_instance",
      [("family", "voc_sbd"), ("json_file", osPathJoin root "VOC_SBD/annotations/voc_2012_train_instance.json"), ("image_root", osPathJoin root "VOC_SBD/images")]),
    ("voc_2012_val_instance",
      [("family", "voc_sbd"), ("json_file", osPathJoin root "VOC_SBD/annotations/voc_2012_val_instance.json"), ("image_root", osPathJoin root "VOC_SBD/images")]),
    ("sbd_9118_instance",
      [("family", "voc_sbd"), ("json_file", osPathJoin root "VOC_SBD/annotations/sbd_9118_instance.json"), ("image_root", osPathJoin root "VOC_SBD/images")]),
    ("voc_2012_train_instance_pgt",
      [("family", "voc_sbd"), ("json_file", osPathJoin root "VOC_SBD/annotations/voc_2012_train_instance_pgt.json"), ("image_root", osPathJoin root "VOC_SBD/images")]),
    ("sbd_9118_instance_pgt",
      [("family", "voc_sbd"), ("json_file", osPathJoin root "VOC_SBD/annotations/sbd_9118_instance_pgt.json"), ("image_root", osPathJoin root "VOC_SBD/images")])]⟩

/-- The registry state after the VOC_SBD panoptic phase on `sbdInstState`. -/
def sbdState (root : String) : RegState :=
  ⟨[("voc_2007_trainval", .pascalVoc (osPathJoin root "VOC2007") "trainval" 2007),
    ("voc_2007_train", .pascalVoc (osPathJoin root "VOC2007") "train" 2007),
    ("voc_2007_val", .pascalVoc (osPathJoin root "VOC2007") "val" 2007),
    ("voc_2007_test", .pascalVoc (osPathJoin root "VOC2007") "test" 2007),
    ("voc_2012_trainval", .pascalVoc (osPathJoin root "VOC2012") "trainval" 2012),
    ("voc_2012_train", .pascalVoc (osPathJoin root "VOC2012") "train" 2012),
    ("voc_2012_val", .pascalVoc (osPathJoin root "VOC2012") "val" 2012),
    ("voc_2012_test", .pascalVoc (osPathJoin root "VOC2012") "test" 2012),
    ("flickr_voc", .cocoInstances (osPathJoin root "flickr_voc/images_d2.json") (osPathJoin root "flickr_voc/images")),
    ("flickr_coco", .cocoInstances (osPathJoin root "flickr_coco/images_d2.json") (osPathJoin root "flickr_coco/images")),
    ("voc_2007_train_pgt", .cocoInstances (osPathJoin root "VOC2007/../results/VOC2007/Main/voc_2007_train_pgt.json") (osPathJoin root "VOC2007/JPEGImages")),
    ("voc_2007_val_pgt", .cocoInstances (osPathJoin root "VOC2007/../results/VOC2007/Main/voc_2007_val_pgt.json") (osPathJoin root "VOC2007/JPEGImages")),
    ("voc_2012_train_instance", .cocoInstances (osPathJoin root "VOC_SBD/annotations/voc_2012_train_instance.json") (osPathJoin root "VOC_SBD/images")),
    ("voc_2012_val_instance", .cocoInstances (osPathJoin root "VOC_SBD/annotations/voc_2012_val_instance.json") (osPathJoin root "VOC_SBD/images")),
    ("sbd_9118_instance", .cocoInstances (osPathJoin root "VOC_SBD/annotations/sbd_9118_instance.json") (osPathJoin root "VOC_SBD/images")),
    ("voc_2012_train_instance_pgt", .cocoInstances (osPathJoin root "VOC_SBD/annotations/voc_2012_train_instance_pgt.json") (osPathJoin root "VOC_SBD/images")),
    ("sbd_9118_instance_pgt", .cocoInstances (osPathJoin root "VOC_SBD/annotations/sbd_9118_instance_pgt.json") (osPathJoin root "VOC_SBD/images")),
    ("voc_2012_train_panoptic_separated", .panopticSeparated (osPathJoin root "VOC_SBD/images") (osPathJoin root "VOC_SBD/annotations/panoptic") (osPathJoin root "VOC_SBD/annotations/voc_2012_train_panoptic.json") (osPathJoin root "VOC_SBD/annotations/panoptic_stuff") (osPathJoin root "VOC_SBD/annotations/voc_2012_train_instance.json")),
    ("voc_2012_train_panoptic", .panopticStandard (osPathJoin root "VOC_SBD/images") (osPathJoin root "VOC_SBD/annotations/panoptic") (osPathJoin root "VOC_SBD/annotations/voc_2012_train_panoptic.json") (osPathJoin root "VOC_SBD/annotations/voc_2012_train_instance.json")),
    ("voc_2012_val_panoptic_separated", .panopticSeparated (osPathJoin root "VOC_SBD/images") (osPathJoin root "VOC_SBD/annotations/panoptic") (osPathJoin root "VOC_SBD/annotations/voc_2012_val_panoptic.json") (osPathJoin root "VOC_SBD/annotations/panoptic_stuff") (osPathJoin root "VOC_SBD/annotations/voc_2012_val_instance.json")),
    ("voc_2012_val_panoptic", .panopticStandard (osPathJoin root "VOC_SBD/images") (osPathJoin root "VOC_SBD/annotations/panoptic") (osPathJoin root "VOC_SBD/annotations/voc_2012_val_panoptic.json") (osPathJoin root "VOC_SBD/annotations/voc_2012_val_instance.json")),
    ("sbd_9118_panoptic_separated", .panopticSeparated (osPathJoin root "VOC_SBD/images") (osPathJoin root "VOC_SBD/annotations/panoptic") (osPathJoin root "VOC_SBD/annotations/sbd_9118_panoptic.json") (osPathJoin root "VOC_SBD/annotations/panoptic_stuff") (osPathJoin root "VOC_SBD/annotations/sbd_9118_instance.json")),
    ("sbd_9118_panoptic", .panopticStandard (osPathJoin root "VOC_SBD/images") (osPathJoin root "VOC_SBD/annotations/panoptic") (osPathJoin root "VOC_SBD/annotations/sbd_9118_panoptic.json") (osPathJoin root "VOC_SBD/annotations/sbd_9118_instance.json"))],
   [("voc_2007_trainval",
      [("evaluator_type", "pascal_voc")]),
    ("voc_2007_train",
      [("evaluator_type", "pascal_voc")]),
    ("voc_2007_val",
      [("evaluator_type", "pascal_voc")]),
    ("voc_2007_test",
      [("evaluator_type", "pascal_voc")]),
    ("voc_2012_trainval",
      [("evaluator_type", "pascal_voc")]),
    ("voc_2012_train",
      [("evaluator_type", "pascal_voc")]),
    ("voc_2012_val",
      [("evaluator_type", "pascal_voc")]),
    ("voc_2012_test",
      [("evaluator_type", "pascal_voc")]),
    ("flickr_voc",
      [("family", "flickr_voc"), ("json_file", osPathJoin root "flickr_voc/images_d2.json"), ("image_root", osPathJoin root "flickr_voc/images")]),
    ("flickr_coco",
      [("family", "flickr_coco"), ("json_file", osPathJoin root "flickr_coco/images_d2.json"), ("image_root", osPathJoin root "flickr_coco/images")]),
    ("voc_2007_train_pgt",
      [("family", "voc_2007_pgt"), ("json_file", osPathJoin root "VOC2007/../results/VOC2007/Main/voc_2007_train_pgt.json"), ("image_root", osPathJoin root "VOC2007/JPEGImages")]),
    ("voc_2007_val_pgt",
      [("family", "voc_2007_pgt"), ("json_file", osPathJoin root "VOC2007/../results/VOC2007/Main/voc_2007_val_pgt.json"), ("image_root", osPathJoin root "VOC2007/JPEGImages")]),
    ("voc_2012_train_instance",
      [("family", "voc_sbd"), ("json_file", osPathJoin root "VOC_SBD/annotations/voc_2012_train_instance.json"), ("image_root", osPathJoin root "VOC_SBD/images")]),
    ("voc_2012_val_instance",
      [("family", "voc_sbd"), ("json_file", osPathJoin root "VOC_SBD/annotations/voc_2012_val_instance.json"), ("image_root", osPathJoin root "VOC_SBD/images")]),
    ("sbd_9118_instance",
      [("family", "voc_sbd"), ("json_file", osPathJoin root "VOC_SBD/annotations/sbd_9118_instance.json"), ("image_root", osPathJoin root "VOC_SBD/images")]),
    ("voc_2012_train_instance_pgt",
      [("family", "voc_sbd"), ("json_file", osPathJoin root "VOC_SBD/annotations/voc_2012_train_instance_pgt.json"), ("image_root", osPathJoin root "VOC_SBD/images")]),
    ("sbd_9118_instance_pgt",
      [("family", "voc_sbd"), ("json_file", osPathJoin root "VOC_SBD/annotations/sbd_9118_instance_pgt.json"), ("image_root", osPathJoin root "VOC_SBD/images")]),
    ("voc_2012_train_panoptic_separated",
      [("family", "voc_sbd_panoptic_separated"), ("image_root", osPathJoin root "VOC_SBD/images"), ("panoptic_root", osPathJoin root "VOC_SBD/annotations/panoptic"), ("panoptic_json", osPathJoin root "VOC_SBD/annotations/voc_2012_train_panoptic.json"), ("semantic_root", osPathJoin root "VOC_SBD/annotations/panoptic_stuff"), ("json_file", osPathJoin root "VOC_SBD/annotations/voc_2012_train_instance.json")]),
    ("voc_2012_train_panoptic",
      [("family", "voc_sbd_panoptic_standard"), ("image_root", osPathJoin root "VOC_SBD/images"), ("panoptic_root", osPathJoin root "VOC_SBD/annotations/panoptic"), ("panoptic_json", osPathJoin root "VOC_SBD/annotations/voc_2012_train_panoptic.json"), ("json_file", osPathJoin root "VOC_SBD/annotations/voc_2012_train_instance.json")]),
    ("voc_2012_val_panoptic_separated",
      [("family", "voc_sbd_panoptic_separated"), ("image_root", osPathJoin root "VOC_SBD/images"), ("panoptic_root", osPathJoin root "VOC_SBD/annotations/panoptic"), ("panoptic_json", osPathJoin root "VOC_SBD/annotations/voc_2012_val_panoptic.json"), ("semantic_root", osPathJoin root "VOC_SBD/annotations/panoptic_stuff"), ("json_file", osPathJoin root "VOC_SBD/annotations/voc_2012_val_instance.json")]),
    ("voc_2012_val_panoptic",
      [("family", "voc_sbd_panoptic_standard"), ("image_root", osPathJoin root "VOC_SBD/images"), ("panoptic_root", osPathJoin root "VOC_SBD/annotations/panoptic"), ("panoptic_json", osPathJoin root "VOC_SBD/annotations/voc_2012_val_panoptic.json"), ("json_file", osPathJoin root "VOC_SBD/annotations/voc_2012_val_instance.json")]),
    ("sbd_9118_panoptic_separated",
      [("family", "voc_sbd_panoptic_separated"), ("image_root", osPathJoin root "VOC_SBD/images"), ("panoptic_root", osPathJoin root "VOC_SBD/annotations/panoptic"), ("panoptic_json", osPathJoin root "VOC_SBD/annotations/sbd_9118_panoptic.json"), ("semantic_root", osPathJoin root "VOC_SBD/annotations/panoptic_stuff"), ("json_file", osPathJoin root "VOC_SBD/annotations/sbd_9118_instance.json")]),
    ("sbd_9118_panoptic",
      [("family", "voc_sbd_panoptic_standard"), ("image_root", osPathJoin root "VOC_SBD/images"), ("panoptic_root", osPathJoin root "VOC_SBD/annotations/panoptic"), ("panoptic_json", osPathJoin root "VOC_SBD/annotations/sbd_9118_panoptic.json"), ("json_file", osPathJoin root "VOC_SBD/annotations/sbd_9118_instance.json")])]⟩

/-- The registry state after `register_all_voc_json` on `sbdState`: the full bootstrap result. -/
def finalState (root : String) : RegState :=
  ⟨[("voc_2007_trainval", .pascalVoc (osPathJoin root "VOC2007") "trainval" 2007),
    ("voc_2007_train", .pascalVoc (osPathJoin root "VOC2007") "train" 2007),
    ("voc_2007_val", .pascalVoc (osPathJoin root "VOC2007") "val" 2007),
    ("voc_2007_test", .pascalVoc (osPathJoin root "VOC2007") "test" 2007),
    ("voc_2012_trainval", .pascalVoc (osPathJoin root "VOC2012") "trainval" 2012),
    ("voc_2012_train", .pascalVoc (osPathJoin root "VOC2012") "train" 2012),
    ("voc_2012_val", .pascalVoc (osPathJoin root "VOC2012") "val" 2012),
    ("voc_2012_test", .pascalVoc (osPathJoin root "VOC2012") "test" 2012),
    ("flickr_voc", .cocoInstances (osPathJoin root "flickr_voc/images_d2.json") (osPathJoin root "flickr_voc/images")),
    ("flickr_coco", .cocoInstances (osPathJoin root "flickr_coco/images_d2.json") (osPathJoin root "flickr_coco/images")),
    ("voc_2007_train_pgt", .cocoInstances (osPathJoin root "VOC2007/../results/VOC2007/Main/voc_2007_train_pgt.json") (osPathJoin root "VOC2007/JPEGImages")),
    ("voc_2007_val_pgt", .cocoInstances (osPathJoin root "VOC2007/../results/VOC2007/Main/voc_2007_val_pgt.json") (osPathJoin root "VOC2007/JPEGImages")),
    ("voc_2012_train_instance", .cocoInstances (osPathJoin root "VOC_SBD/annotations/voc_2012_train_instance.json") (osPathJoin root "VOC_SBD/images")),
    ("voc_2012_val_instance", .cocoInstances (osPathJoin root "VOC_SBD/annotations/voc_2012_val_instance.json") (osPathJoin root "VOC_SBD/images")),
    ("sbd_9118_instance", .cocoInstances (osPathJoin root "VOC_SBD/annotations/sbd_9118_instance.json") (osPathJoin root "VOC_SBD/images")),
    ("voc_2012_train_instance_pgt", .cocoInstances (osPathJoin root "VOC_SBD/annotations/voc_2012_train_instance_pgt.json") (osPathJoin root "VOC_SBD/images")),
    ("sbd_9118_instance_pgt", .cocoInstances (osPathJoin root "VOC_SBD/annotations/sbd_9118_instance_pgt.json") (osPathJoin root "VOC_SBD/images")),
    ("voc_2012_train_panoptic_separated", .panopticSeparated (osPathJoin root "VOC_SBD/images") (osPathJoin root "VOC_SBD/annotations/panoptic") (osPathJoin root "VOC_SBD/annotations/voc_2012_train_panoptic.json") (osPathJoin root "VOC_SBD/annotations/panoptic_stuff") (osPathJoin root "VOC_SBD/annotations/voc_2012_train_instance.json")),
    ("voc_2012_train_panoptic", .panopticStandard (osPathJoin root "VOC_SBD/images") (osPathJoin root "VOC_SBD/annotations/panoptic") (osPathJoin root "VOC_SBD/annotations/voc_2012_train_panoptic.json") (osPathJoin root "VOC_SBD/annotations/voc_2012_train_instance.json")),
    ("voc_2012_val_panoptic_separated", .panopticSeparated (osPathJoin root "VOC_SBD/images") (osPathJoin root "VOC_SBD/annotations/panoptic") (osPathJoin root "VOC_SBD/annotations/voc_2012_val_panoptic.json") (osPathJoin root "VOC_SBD/annotations/panoptic_stuff") (osPathJoin root "VOC_SBD/annotations/voc_2012_val_instance.json")),
    ("voc_2012_val_panoptic", .panopticStandard (osPathJoin root "VOC_SBD/images") (osPathJoin root "VOC_SBD/annotations/panoptic") (osPathJoin root "VOC_SBD/annotations/voc_2012_val_panoptic.json") (osPathJoin root "VOC_SBD/annotations/voc_2012_val_instance.json")),
    ("sbd_9118_panoptic_separated", .panopticSeparated (osPathJoin root "VOC_SBD/images") (osPathJoin root "VOC_SBD/annotations/panoptic") (osPathJoin root "VOC_SBD/annotations/sbd_9118_panoptic.json") (osPathJoin root "VOC_SBD/annotations/panoptic_stuff") (osPathJoin root "VOC_SBD/annotations/sbd_9118_instance.json")),
    ("sbd_9118_panoptic", .panopticStandard (osPathJoin root "VOC_SBD/images") (osPathJoin root "VOC_SBD/annotations/panoptic") (osPathJoin root "VOC_SBD/annotations/sbd_9118_panoptic.json") (osPathJoin root "VOC_SBD/annotations/sbd_9118_instance.json")),
    ("voc_2007_train_json", .cocoInstances (osPathJoin root "PASCAL_VOC/pascal_train2007_d2.json") (osPathJoin root "VOC2007/JPEGImages/")),
    ("voc_2007_val_json", .cocoInstances (osPathJoin root "PASCAL_VOC/pascal_val2007_d2.json") (osPathJoin root "VOC2007/JPEGImages/")),
    ("voc_2007_test_json", .cocoInstances (osPathJoin root "PASCAL_VOC/pascal_test2007_d2.json") (osPathJoin root "VOC2007/JPEGImages/")),
    ("voc_2012_train_json", .cocoInstances (osPathJoin root "PASCAL_VOC/pascal_train2012_d2.json") (osPathJoin root "VOC2012/JPEGImages/")),
    ("voc_2012_val_json", .cocoInstances (osPathJoin root "PASCAL_VOC/pascal_val2012_d2.json") (osPathJoin root "VOC2012/JPEGImages/"))],
   [("voc_2007_trainval",
      [("evaluator_type", "pascal_voc")]),
    ("voc_2007_train",
      [("evaluator_type", "pascal_voc")]),
    ("voc_2007_val",
      [("evaluator_type", "pascal_voc")]),
    ("voc_2007_test",
      [("evaluator_type", "pascal_voc")]),
    ("voc_2012_trainval",
      [("evaluator_type", "pascal_voc")]),
    ("voc_2012_train",
      [("evaluator_type", "pascal_voc")]),
    ("voc_2012_val",
      [("evaluator_type", "pascal_voc")]),
    ("voc_2012_test",
      [("evaluator_type", "pascal_voc")]),
    ("flickr_voc",
      [("family", "flickr_voc"), ("json_file", osPathJoin root "flickr_voc/images_d2.json"), ("image_root", osPathJoin root "flickr_voc/images")]),
    ("flickr_coco",
      [("family", "flickr_coco"), ("json_file", osPathJoin root "flickr_coco/images_d2.json"), ("image_root", osPathJoin root "flickr_coco/images")]),
    ("voc_2007_train_pgt",
      [("family", "voc_2007_pgt"), ("json_file", osPathJoin root "VOC2007/../results/VOC2007/Main/voc_2007_train_pgt.json"), ("image_root", osPathJoin root "VOC2007/JPEGImages")]),
    ("voc_2007_val_pgt",
      [("family", "voc_2007_pgt"), ("json_file", osPathJoin root "VOC2007/../results/VOC2007/Main/voc_2007_val_pgt.json"), ("image_root", osPathJoin root "VOC2007/JPEGImages")]),
    ("voc_2012_train_instance",
      [("family", "voc_sbd"), ("json_file", osPathJoin root "VOC_SBD/annotations/voc_2012_train_instance.json"), ("image_root", osPathJoin root "VOC_SBD/images")]),
    ("voc_2012_val_instance",
      [("family", "voc_sbd"), ("json_file", osPathJoin root "VOC_SBD/annotations/voc_2012_val_instance.json"), ("image_root", osPathJoin root "VOC_SBD/images")]),
    ("sbd_9118_instance",
      [("family", "voc_sbd"), ("json_file", osPathJoin root "VOC_SBD/annotations/sbd_9118_instance.json"), ("image_root", osPathJoin root "VOC_SBD/images")]),
    ("voc_2012_train_instance_pgt",
      [("family", "voc_sbd"), ("json_file", osPathJoin root "VOC_SBD/annotations/voc_2012_train_instance_pgt.json"), ("image_root", osPathJoin root "VOC_SBD/images")]),
    ("sbd_9118_instance_pgt",
      [("family", "voc_sbd"), ("json_file", osPathJoin root "VOC_SBD/annotations/sbd_9118_instance_pgt.json"), ("image_root", osPathJoin root "VOC_SBD/images")]),
    ("voc_2012_train_panoptic_separated",
      [("family", "voc_sbd_panoptic_separated"), ("image_root", osPathJoin root "VOC_SBD/images"), ("panoptic_root", osPathJoin root "VOC_SBD/annotations/panoptic"), ("panoptic_json", osPathJoin root "VOC_SBD/annotations/voc_2012_train_panoptic.json"), ("semantic_root", osPathJoin root "VOC_SBD/annotations/panoptic_stuff"), ("json_file", osPathJoin root "VOC_SBD/annotations/voc_2012_train_instance.json")]),
    ("voc_2012_train_panoptic",
      [("family", "voc_sbd_panoptic_standard"), ("image_root", osPathJoin root "VOC_SBD/images"), ("panoptic_root", osPathJoin root "VOC_SBD/annotations/panoptic"), ("panoptic_json", osPathJoin root "VOC_SBD/annotations/voc_2012_train_panoptic.json"), ("json_file", osPathJoin root "VOC_SBD/annotations/voc_2012_train_instance.json")]),
    ("voc_2012_val_panoptic_separated",
      [("family", "voc_sbd_panoptic_separated"), ("image_root", osPathJoin root "VOC_SBD/images"), ("panoptic_root", osPathJoin root "VOC_SBD/annotations/panoptic"), ("panoptic_json", osPathJoin root "VOC_SBD/annotations/voc_2012_val_panoptic.json"), ("semantic_root", osPathJoin root "VOC_SBD/annotations/panoptic_stuff"), ("json_file", osPathJoin root "VOC_SBD/annotations/voc_2012_val_instance.json")]),
    ("voc_2012_val_panoptic",
      [("family", "voc_sbd_panoptic_standard"), ("image_root", osPathJoin root "VOC_SBD/images"), ("panoptic_root", osPathJoin root "VOC_SBD/annotations/panoptic"), ("panoptic_json", osPathJoin root "VOC_SBD/annotations/voc_2012_val_panoptic.json"), ("json_file", osPathJoin root "VOC_SBD/annotations/voc_2012_val_instance.json")]),
    ("sbd_9118_panoptic_separated",
      [("family", "voc_sbd_panoptic_separated"), ("image_root", osPathJoin root "VOC_SBD/images"), ("panoptic_root", osPathJoin root "VOC_SBD/annotations/panoptic"), ("panoptic_json", osPathJoin root "VOC_SBD/annotations/sbd_9118_panoptic.json"), ("semantic_root", osPathJoin root "VOC_SBD/annotations/panoptic_stuff"), ("json_file", osPathJoin root "VOC_SBD/annotations/sbd_9118_instance.json")]),
    ("sbd_9118_panoptic",
      [("family", "voc_sbd_panoptic_standard"), ("image_root", osPathJoin root "VOC_SBD/images"), ("panoptic_root", osPathJoin root "VOC_SBD/annotations/panoptic"), ("panoptic_json", osPathJoin root "VOC_SBD/annotations/sbd_9118_panoptic.json"), ("json_file", osPathJoin root "VOC_SBD/annotations/sbd_9118_instance.json")]),
    ("voc_2007_train_json",
      [("family", "voc_json"), ("json_file", osPathJoin root "PASCAL_VOC/pascal_train2007_d2.json"), ("image_root", osPathJoin root "VOC2007/JPEGImages/")]),
    ("voc_2007_val_json",
      [("family", "voc_json"), ("json_file", osPathJoin root "PASCAL_VOC/pascal_val2007_d2.json"), ("image_root", osPathJoin root "VOC2007/JPEGImages/")]),
    ("voc_2007_test_json",
      [("family", "voc_json"), ("json_file", osPathJoin root "PASCAL_VOC/pascal_test2007_d2.json"), ("image_root", osPathJoin root "VOC2007/JPEGImages/")]),
    ("voc_2012_train_json",
      [("family", "voc_json"), ("json_file", osPathJoin root "PASCAL_VOC/pascal_train2012_d2.json"), ("image_root", osPathJoin root "VOC2012/JPEGImages/")]),
    ("voc_2012_val_json",
      [("family", "voc_json"), ("json_file", osPathJoin root "PASCAL_VOC/pascal_val2012_d2.json"), ("image_root", osPathJoin root "VOC2012/JPEGImages/")])]⟩

/-! ## Helper lemmas -/

theorem alookup_append_of_none {α : Type} {k : String} {xs : List (String × α)}
    (ys : List (String × α)) (h : alookup k xs = none) :
    alookup k (xs ++ ys) = alookup k ys := by
  induction xs with
  | nil => rfl
  | cons p rest ih =>
    obtain ⟨k', v⟩ := p
    by_cases hk : k' = k
    · simp [alookup, hk] at h
    · simpa [alookup, hk] using ih (by simpa [alookup, hk] using h)

theorem alookup_singleton_self {α : Type} (k : String) (v : α) :
    alookup k [(k, v)] = some v := by
  simp [alookup]

theorem aset_of_alookup_none {α : Type} {n : String} {l : List (String × α)} (v : α)
    (h : alookup n l = none) : aset n v l = l ++ [(n, v)] := by
  induction l with
  | nil => rfl
  | cons p rest ih =>
    by_cases hp : p.1 = n
    · simp [alookup, hp] at h
    · simp only [aset, hp, if_neg hp]
      rw [ih (by simpa [alookup, hp] using h)]
      simp

theorem aset_append_last {α : Type} {n : String} {l : List (String × α)} (r v : α)
    (h : alookup n l = none) : aset n v (l ++ [(n, r)]) = l ++ [(n, v)] := by
  induction l with
  | nil => simp [aset]
  | cons p rest ih =>
    obtain ⟨m, w⟩ := p
    by_cases hp : m = n
    · simp [alookup, hp] at h
    · have h' : alookup n rest = none := by simpa [alookup, hp] using h
      simp only [List.cons_append, aset, if_neg hp, List.append_eq]
      rw [ih h']

theorem ok_bind {α β : Type} (a : α) (f : α → Except RegError β) :
    (Except.ok a : Except RegError α) >>= f = f a := rfl

theorem pure_bind_except {α β : Type} (a : α) (f : α → Except RegError β) :
    (pure a : Except RegError α) >>= f = f a := rfl

/-- A fresh name registers by appending its binding to the catalog. -/
theorem dsRegister_fresh (c : List (String × Loader)) (l : List (String × MetadataRecord))
    (n : String) (L : Loader) (h : alookup n c = none) :
    dsRegister ⟨c, l⟩ n L = .ok ⟨c ++ [(n, L)], l⟩ := by
  simp [dsRegister, h]

/-- Setting an attribute for a name with no record yet creates the record. -/
theorem metaSet_create (c : List (String × Loader)) (l : List (String × MetadataRecord))
    (n k v : String) (h : alookup n l = none) :
    metaSet ⟨c, l⟩ n k v = .ok ⟨c, l ++ [(n, [(k, v)])]⟩ := by
  simp [metaSet, metaRecord, h, aset_of_alookup_none _ h, alookup]

/-- Setting an unset attribute on the most recently created record extends
that record in place. -/
theorem metaSet_extend (c : List (String × Loader)) (l : List (String × MetadataRecord))
    (n : String) (r : MetadataRecord) (k v : String)
    (hn : alookup n l = none) (hk : alookup k r = none) :
    metaSet ⟨c, l ++ [(n, r)]⟩ n k v = .ok ⟨c, l ++ [(n, r ++ [(k, v)])]⟩ := by
  have hrec : metaRecord ⟨c, l ++ [(n, r)]⟩ n = r := by
    simp [metaRecord, alookup_append_of_none _ hn, alookup]
  simp [metaSet, hrec, hk, aset_append_last _ _ hn]

/-- Effect of `register_coco_instances` on a state where `name` is fresh. -/
theorem register_coco_instances_spec (name k js ir : String) (st : RegState)
    (hc : alookup name st.catalog = none) (hm : alookup name st.metadata = none) :
    register_coco_instances name [("family", k)] js ir st =
      .ok ⟨st.catalog ++ [(name, .cocoInstances js ir)],
           st.metadata ++ [(name, [("family", k), ("json_file", js), ("image_root", ir)])]⟩ := by
  obtain ⟨c, l⟩ := st
  simp only [register_coco_instances, metaMerge, List.foldlM]
  rw [dsRegister_fresh _ _ _ _ hc]
  simp only [ok_bind]
  rw [metaSet_create _ _ _ _ _ hm]
  simp only [pure_bind_except, ok_bind]
  rw [metaSet_extend (c ++ [(name, Loader.cocoInstances js ir)]) l name
    [("family", k)] "json_file" js hm rfl]
  simp only [ok_bind]
  rw [metaSet_extend (c ++ [(name, Loader.cocoInstances js ir)]) l name
    ([("family", k)] ++ [("json_file", js)]) "image_root" ir hm rfl]
  simp

/-- Effect of `register_coco_panoptic_separated` on a state where the
derived `_separated` name is fresh. -/
theorem register_coco_panoptic_separated_spec (name k ir pr pj sr ij : String) (st : RegState)
    (hc : alookup (name ++ "_separated") st.catalog = none)
    (hm : alookup (name ++ "_separated") st.metadata = none) :
    register_coco_panoptic_separated name [("family", k)] ir pr pj sr ij st =
      .ok ⟨st.catalog ++ [(name ++ "_separated", .panopticSeparated ir pr pj sr ij)],
           st.metadata ++ [(name ++ "_separated",
             [("family", k), ("image_root", ir), ("panoptic_root", pr),
              ("panoptic_json", pj), ("semantic_root", sr), ("json_file", ij)])]⟩ := by
  obtain ⟨c, l⟩ := st
  simp only [register_coco_panoptic_separated, metaMerge, List.foldlM]
  rw [dsRegister_fresh _ _ _ _ hc]
  simp only [ok_bind]
  rw [metaSet_create _ _ _ _ _ hm]
  simp only [pure_bind_except, ok_bind]
  rw [metaSet_extend (c ++ [(name ++ "_separated", Loader.panopticSeparated ir pr pj sr ij)]) l
    (name ++ "_separated") [("family", k)] "image_root" ir hm rfl]
  simp only [ok_bind]
  rw [metaSet_extend (c ++ [(name ++ "_separated", Loader.panopticSeparated ir pr pj sr ij)]) l
    (name ++ "_separated") ([("family", k)] ++ [("image_root", ir)]) "panoptic_root" pr hm rfl]
  simp only [ok_bind]
  rw [metaSet_extend (c ++ [(name ++ "_separated", Loader.panopticSeparated ir pr pj sr ij)]) l
    (name ++ "_separated") ([("family", k)] ++ [("image_root", ir)] ++ [("panoptic_root", pr)])
    "panoptic_json" pj hm rfl]
  simp only [ok_bind]
  rw [metaSet_extend (c ++ [(name ++ "_separated", Loader.panopticSeparated ir pr pj sr ij)]) l
    (name ++ "_separated")
    ([("family", k)] ++ [("image_root", ir)] ++ [("panoptic_root", pr)] ++ [("panoptic_json", pj)])
    "semantic_root" sr hm rfl]
  simp only [ok_bind]
  rw [metaSet_extend (c ++ [(name ++ "_separated", Loader.panopticSeparated ir pr pj sr ij)]) l
    (name ++ "_separated")
    ([("family", k)] ++ [("image_root", ir)] ++ [("panoptic_root", pr)] ++ [("panoptic_json", pj)]
      ++ [("semantic_root", sr)])
    "json_file" ij hm rfl]
  simp

/-- Effect of `register_coco_panoptic` on a state where `name` is fresh. -/
theorem register_coco_panoptic_spec (name k ir pr pj ij : String) (st : RegState)
    (hc : alookup name st.catalog = none)
    (hm : alookup name st.metadata = none) :
    register_coco_panoptic name [("family", k)] ir pr pj ij st =
      .ok ⟨st.catalog ++ [(name, .panopticStandard ir pr pj ij)],
           st.metadata ++ [(name,
             [("family", k), ("image_root", ir), ("panoptic_root", pr),
              ("panoptic_json", pj), ("json_file", ij)])]⟩ := by
  obtain ⟨c, l⟩ := st
  simp only [register_coco_panoptic, metaMerge, List.foldlM]
  rw [dsRegister_fresh _ _ _ _ hc]
  simp only [ok_bind]
  rw [metaSet_create _ _ _ _ _ hm]
  simp only [pure_bind_except, ok_bind]
  rw [metaSet_extend (c ++ [(name, Loader.panopticStandard ir pr pj ij)]) l
    name [("family", k)] "image_root" ir hm rfl]
  simp only [ok_bind]
  rw [metaSet_extend (c ++ [(name, Loader.panopticStandard ir pr pj ij)]) l
    name ([("family", k)] ++ [("image_root", ir)]) "panoptic_root" pr hm rfl]
  simp only [ok_bind]
  rw [metaSet_extend (c ++ [(name, Loader.panopticStandard ir pr pj ij)]) l
    name ([("family", k)] ++ [("image_root", ir)] ++ [("panoptic_root", pr)])
    "panoptic_json" pj hm rfl]
  simp only [ok_bind]
  rw [metaSet_extend (c ++ [(name, Loader.panopticStandard ir pr pj ij)]) l
    name
    ([("family", k)] ++ [("image_root", ir)] ++ [("panoptic_root", pr)] ++ [("panoptic_json", pj)])
    "json_file" ij hm rfl]
  simp


/-- Run of `register_all_pascal_voc` from the empty bootstrap state. -/
theorem register_all_pascal_voc_run (root : String) :
    register_all_pascal_voc root emptyState = .ok (pascalState root) := by
  simp +decide [register_all_pascal_voc, pascalVocSPLITS, List.foldlM, register_pascal_voc,
    emptyState, ok_bind, pure_bind_except, dsRegister_fresh, metaSet_create, metaSet_extend,
    alookup, pascalState,
    (by decide : inferYear "voc_2007_trainval" = 2007),
    (by decide : inferYear "voc_2007_train" = 2007),
    (by decide : inferYear "voc_2007_val" = 2007),
    (by decide : inferYear "voc_2007_test" = 2007),
    (by decide : inferYear "voc_2012_trainval" = 2012),
    (by decide : inferYear "voc_2012_train" = 2012),
    (by decide : inferYear "voc_2012_val" = 2012),
    (by decide : inferYear "voc_2012_test" = 2012)]

/-- Run of `register_all_web` on the state left by the Pascal-VOC family. -/
theorem register_all_web_run (root : String) :
    register_all_web root (pascalState root) = .ok (webState root) := by
  simp +decide [register_all_web, _PREDEFINED_SPLITS_WEB, List.foldlM, registerCocoEntry,
    resolveJsonPath, resolveImagePath, getBuiltinMetadata, ok_bind, pure_bind_except,
    register_coco_instances_spec, alookup, pascalState, webState,
    (by decide : strContains "flickr_voc/images_d2.json" "://" = false),
    (by decide : strContains "flickr_coco/images_d2.json" "://" = false)]

/-- Run of `register_all_voc_pgt` on the state left by the web family. -/
theorem register_all_voc_pgt_run (root : String) :
    register_all_voc_pgt root (webState root) = .ok (pgtState root) := by
  simp +decide [register_all_voc_pgt, _PREDEFINED_SPLITS_VOC_PGT, List.foldlM, registerCocoEntry,
    resolveJsonPath, resolveImagePath, getBuiltinMetadata, ok_bind, pure_bind_except,
    register_coco_instances_spec, alookup, webState, pgtState,
    (by decide : strContains "VOC2007/../results/VOC2007/Main/voc_2007_train_pgt.json" "://" = false),
    (by decide : strContains "VOC2007/../results/VOC2007/Main/voc_2007_val_pgt.json" "://" = false)]

/-- Run of the VOC_SBD instance loop on the state left by the PGT family. -/
theorem vocSbdInstancePhase_run (root : String) :
    vocSbdInstancePhase root (pgtState root) = .ok (sbdInstState root) := by
  simp +decide [vocSbdInstancePhase, _PREDEFINED_SPLITS_VOC_SBD, List.foldlM, registerCocoEntry,
    resolveJsonPath, resolveImagePath, getBuiltinMetadata, ok_bind, pure_bind_except,
    register_coco_instances_spec, alookup, pgtState, sbdInstState,
    (by decide : strContains "VOC_SBD/annotations/voc_2012_train_instance.json" "://" = false),
    (by decide : strContains "VOC_SBD/annotations/voc_2012_val_instance.json" "://" = false),
    (by decide : strContains "VOC_SBD/annotations/sbd_9118_instance.json" "://" = false),
    (by decide : strContains "VOC_SBD/annotations/voc_2012_train_instance_pgt.json" "://" = false),
    (by decide : strContains "VOC_SBD/annotations/sbd_9118_instance_pgt.json" "://" = false)]

/-- Run of the VOC_SBD panoptic loop on the state left by the instance loop. -/
theorem vocSbdPanopticPhase_run (root : String) :
    vocSbdPanopticPhase root (sbdInstState root) = .ok (sbdState root) := by
  simp +decide [vocSbdPanopticPhase, _PREDEFINED_SPLITS_VOC_SBD_PANOPTIC, List.foldlM,
    registerVocSbdPanopticEntry, metaRecord, getBuiltinMetadata, ok_bind, pure_bind_except,
    register_coco_panoptic_separated_spec, register_coco_panoptic_spec,
    alookup, sbdInstState, sbdState,
    (by decide : strReplace "voc_2012_train_panoptic" "_panoptic" "_instance" = "voc_2012_train_instance"),
    (by decide : strReplace "voc_2012_val_panoptic" "_panoptic" "_instance" = "voc_2012_val_instance"),
    (by decide : strReplace "sbd_9118_panoptic" "_panoptic" "_instance" = "sbd_9118_instance"),
    (by decide : "voc_2012_train_panoptic" ++ "_separated" = "voc_2012_train_panoptic_separated"),
    (by decide : "voc_2012_val_panoptic" ++ "_separated" = "voc_2012_val_panoptic_separated"),
    (by decide : "sbd_9118_panoptic" ++ "_separated" = "sbd_9118_panoptic_separated")]

/-- Run of `register_all_voc_json` on the state left by the VOC_SBD family. -/
theorem register_all_voc_json_run (root : String) :
    register_all_voc_json root (sbdState root) = .ok (finalState root) := by
  simp +decide [register_all_voc_json, _PREDEFINED_SPLITS_VOC_JSON, List.foldlM, registerCocoEntry,
    resolveJsonPath, resolveImagePath, getBuiltinMetadata, ok_bind, pure_bind_except,
    register_coco_instances_spec, alookup, sbdState, finalState,
    (by decide : strContains "PASCAL_VOC/pascal_train2007_d2.json" "://" = false),
    (by decide : strContains "PASCAL_VOC/pascal_val2007_d2.json" "://" = false),
    (by decide : strContains "PASCAL_VOC/pascal_test2007_d2.json" "://" = false),
    (by decide : strContains "PASCAL_VOC/pascal_train2012_d2.json" "://" = false),
    (by decide : strContains "PASCAL_VOC/pascal_val2012_d2.json" "://" = false)]

/-- The whole bootstrap succeeds and produces `finalState` at the
environment-resolved root. -/
theorem bootstrap_run (env : String → Option String) :
    bootstrap env = .ok (finalState (bootstrapRoot env)) := by
  simp only [bootstrap, register_all_voc_sbd]
  rw [register_all_pascal_voc_run]
  simp only [ok_bind]
  rw [register_all_web_run]
  simp only [ok_bind]
  rw [register_all_voc_pgt_run]
  simp only [ok_bind]
  rw [vocSbdInstancePhase_run]
  simp only [ok_bind]
  rw [vocSbdPanopticPhase_run]
  simp only [ok_bind]
  rw [register_all_voc_json_run]

/-- Effect of the `voc_2012_train_panoptic` panoptic registration step on a state
holding only its paired instance metadata. -/
theorem panopticEntryRunTrain (root ir js : String) :
    registerVocSbdPanopticEntry root "voc_2012_train_panoptic"
        "VOC_SBD/annotations/panoptic" "VOC_SBD/annotations/voc_2012_train_panoptic.json"
        "VOC_SBD/annotations/panoptic_stuff"
        (pairedOnlyState "voc_2012_train_instance" ir js) =
      .ok ⟨[("voc_2012_train_panoptic_separated",
             .panopticSeparated ir (osPathJoin root "VOC_SBD/annotations/panoptic") (osPathJoin root "VOC_SBD/annotations/voc_2012_train_panoptic.json") (osPathJoin root "VOC_SBD/annotations/panoptic_stuff") js),
            ("voc_2012_train_panoptic",
             .panopticStandard ir (osPathJoin root "VOC_SBD/annotations/panoptic") (osPathJoin root "VOC_SBD/annotations/voc_2012_train_panoptic.json") js)],
           [("voc_2012_train_instance", [("image_root", ir), ("json_file", js)]),
            ("voc_2012_train_panoptic_separated",
             [("family", "voc_sbd_panoptic_separated"), ("image_root", ir),
              ("panoptic_root", osPathJoin root "VOC_SBD/annotations/panoptic"), ("panoptic_json", osPathJoin root "VOC_SBD/annotations/voc_2012_train_panoptic.json"),
              ("semantic_root", osPathJoin root "VOC_SBD/annotations/panoptic_stuff"), ("json_file", js)]),
            ("voc_2012_train_panoptic",
             [("family", "voc_sbd_panoptic_standard"), ("image_root", ir),
              ("panoptic_root", osPathJoin root "VOC_SBD/annotations/panoptic"), ("panoptic_json", osPathJoin root "VOC_SBD/annotations/voc_2012_train_panoptic.json"),
              ("json_file", js)])]⟩ := by
  simp +decide [registerVocSbdPanopticEntry, pairedOnlyState, metaRecord, alookup,
    getBuiltinMetadata, ok_bind, pure_bind_except,
    register_coco_panoptic_separated_spec, register_coco_panoptic_spec,
    (by decide : strReplace "voc_2012_train_panoptic" "_panoptic" "_instance" = "voc_2012_train_instance"),
    (by decide : "voc_2012_train_panoptic" ++ "_separated" = "voc_2012_train_panoptic_separated")]

/-- Effect of the `voc_2012_val_panoptic` panoptic registration step on a state
holding only its paired instance metadata. -/
theorem panopticEntryRunVal (root ir js : String) :
    registerVocSbdPanopticEntry root "voc_2012_val_panoptic"
        "VOC_SBD/annotations/panoptic" "VOC_SBD/annotations/voc_2012_val_panoptic.json"
        "VOC_SBD/annotations/panoptic_stuff"
        (pairedOnlyState "voc_2012_val_instance" ir js) =
      .ok ⟨[("voc_2012_val_panoptic_separated",
             .panopticSeparated ir (osPathJoin root "VOC_SBD/annotations/panoptic") (osPathJoin root "VOC_SBD/annotations/voc_2012_val_panoptic.json") (osPathJoin root "VOC_SBD/annotations/panoptic_stuff") js),
            ("voc_2012_val_panoptic",
             .panopticStandard ir (osPathJoin root "VOC_SBD/annotations/panoptic") (osPathJoin root "VOC_SBD/annotations/voc_2012_val_panoptic.json") js)],
           [("voc_2012_val_instance", [("image_root", ir), ("json_file", js)]),
            ("voc_2012_val_panoptic_separated",
             [("family", "voc_sbd_panoptic_separated"), ("image_root", ir),
              ("panoptic_root", osPathJoin root "VOC_SBD/annotations/panoptic"), ("panoptic_json", osPathJoin root "VOC_SBD/annotations/voc_2012_val_panoptic.json"),
              ("semantic_root", osPathJoin root "VOC_SBD/annotations/panoptic_stuff"), ("json_file", js)]),
            ("voc_2012_val_panoptic",
             [("family", "voc_sbd_panoptic_standard"), ("image_root", ir),
              ("panoptic_root", osPathJoin root "VOC_SBD/annotations/panoptic"), ("panoptic_json", osPathJoin root "VOC_SBD/annotations/voc_2012_val_panoptic.json"),
              ("json_file", js)])]⟩ := by
  simp +decide [registerVocSbdPanopticEntry, pairedOnlyState, metaRecord, alookup,
    getBuiltinMetadata, ok_bind, pure_bind_except,
    register_coco_panoptic_separated_spec, register_coco_panoptic_spec,
    (by decide : strReplace "voc_2012_val_panoptic" "_panoptic" "_instance" = "voc_2012_val_instance"),
    (by decide : "voc_2012_val_panoptic" ++ "_separated" = "voc_2012_val_panoptic_separated")]

/-- Effect of the `sbd_9118_panoptic` panoptic registration step on a state
holding only its paired instance metadata. -/
theorem panopticEntryRunSbd (root ir js : String) :
    registerVocSbdPanopticEntry root "sbd_9118_panoptic"
        "VOC_SBD/annotations/panoptic" "VOC_SBD/annotations/sbd_9118_panoptic.json"
        "VOC_SBD/annotations/panoptic_stuff"
        (pairedOnlyState "sbd_9118_instance" ir js) =
      .ok ⟨[("sbd_9118_panoptic_separated",
             .panopticSeparated ir (osPathJoin root "VOC_SBD/annotations/panoptic") (osPathJoin root "VOC_SBD/annotations/sbd_9118_panoptic.json") (osPathJoin root "VOC_SBD/annotations/panoptic_stuff") js),
            ("sbd_9118_panoptic",
             .panopticStandard ir (osPathJoin root "VOC_SBD/annotations/panoptic") (osPathJoin root "VOC_SBD/annotations/sbd_9118_panoptic.json") js)],
           [("sbd_9118_instance", [("image_root", ir), ("json_file", js)]),
            ("sbd_9118_panoptic_separated",
             [("family", "voc_sbd_panoptic_separated"), ("image_root", ir),
              ("panoptic_root", osPathJoin root "VOC_SBD/annotations/panoptic"), ("panoptic_json", osPathJoin root "VOC_SBD/annotations/sbd_9118_panoptic.json"),
              ("semantic_root", osPathJoin root "VOC_SBD/annotations/panoptic_stuff"), ("json_file", js)]),
            ("sbd_9118_panoptic",
             [("family", "voc_sbd_panoptic_standard"), ("image_root", ir),
              ("panoptic_root", osPathJoin root "VOC_SBD/annotations/panoptic"), ("panoptic_json", osPathJoin root "VOC_SBD/annotations/sbd_9118_panoptic.json"),
              ("json_file", js)])]⟩ := by
  simp +decide [registerVocSbdPanopticEntry, pairedOnlyState, metaRecord, alookup,
    getBuiltinMetadata, ok_bind, pure_bind_except,
    register_coco_panoptic_separated_spec, register_coco_panoptic_spec,
    (by decide : strReplace "sbd_9118_panoptic" "_panoptic" "_instance" = "sbd_9118_instance"),
    (by decide : "sbd_9118_panoptic" ++ "_separated" = "sbd_9118_panoptic_separated")]

/-! ## Claim theorems -/

/-- C2: registering a name that is already bound to a different loader
fails with `DuplicateRegistration`, while re-registering it with the same
loader is a no-op that leaves the state (hence the binding) unchanged. -/
theorem c2_duplicate_registration (st : RegState) (n : String) (l1 l2 : Loader)
    (h : alookup n st.catalog = some l1) :
    (l2 ≠ l1 → dsRegister st n l2 = .error .DuplicateRegistration) ∧
      dsRegister st n l1 = .ok st := by
  constructor
  · intro hne
    simp only [dsRegister, h]
    rw [if_neg (fun he => hne he.symm)]
  · simp [dsRegister, h]

/-- Witness for C2 at a concrete state: `"flickr_voc"` bound to one
loader; registering a different loader errs and re-registering the same
loader returns the state unchanged. -/
theorem c2_duplicate_registration_witness :
    (dsRegister ⟨[("flickr_voc", .cocoInstances "a.json" "imgs")], []⟩ "flickr_voc"
        (.cocoInstances "b.json" "imgs") = .error .DuplicateRegistration) ∧
      dsRegister ⟨[("flickr_voc", .cocoInstances "a.json" "imgs")], []⟩ "flickr_voc"
        (.cocoInstances "a.json" "imgs") =
          .ok ⟨[("flickr_voc", .cocoInstances "a.json" "imgs")], []⟩ := by
  have h := c2_duplicate_registration ⟨[("flickr_voc", .cocoInstances "a.json" "imgs")], []⟩
    "flickr_voc" (.cocoInstances "a.json" "imgs") (.cocoInstances "b.json" "imgs") (by decide)
  exact ⟨h.1 (by decide), h.2⟩

/-- C3: on a record where key `k` is unset for name `n`, setting
`(n, k, v1)` succeeds and stores `v1`; setting `(n, k, v1)` again on the
result is a silent no-op; setting `(n, k, v2)` with `v1 ≠ v2` on the
result raises `MetadataConflict`. -/
theorem c3_metadata_conflict (st : RegState) (n k v1 v2 : String)
    (h : alookup k (metaRecord st n) = none) :
    ((metaSet st n k v1).map (fun st' => alookup k (metaRecord st' n)) = .ok (some v1)) ∧
      ((metaSet st n k v1).bind (fun st' => metaSet st' n k v1) = metaSet st n k v1) ∧
      (v1 ≠ v2 →
        (metaSet st n k v1).bind (fun st' => metaSet st' n k v2) =
          .error .MetadataConflict) := by
  have hrec : ∀ v : String,
      metaRecord { st with
          metadata := aset n (metaRecord st n ++ [(k, v)]) st.metadata } n =
        metaRecord st n ++ [(k, v)] := by
    intro v
    have : ∀ (meta : List (String × MetadataRecord)) (r : MetadataRecord),
        alookup n (aset n r meta) = some r := by
      intro meta r
      induction meta with
      | nil => simp [aset, alookup]
      | cons p rest ih =>
        by_cases hp : p.1 = n
        · simp [aset, hp, alookup]
        · simpa [aset, hp, alookup] using ih
    simp [metaRecord, this]
  have hgot : ∀ v : String,
      alookup k (metaRecord st n ++ [(k, v)]) = some v := by
    intro v
    rw [alookup_append_of_none _ h, alookup_singleton_self]
  refine ⟨?_, ?_, ?_⟩
  · simp [metaSet, h, hrec, hgot, Except.map]
  · simp [metaSet, h, hrec, hgot, Except.bind]
  · intro hne
    simp [metaSet, h, hrec, hgot, Except.bind, fun he : v1 = v2 => hne he]

/-- Witness for C3 on the empty state: setting `evaluator_type` twice
with the same value is a no-op; setting it again with a different value
raises `MetadataConflict`. -/
theorem c3_metadata_conflict_witness :
    ((metaSet emptyState "voc_2007_train" "evaluator_type" "pascal_voc").map
        (fun st' => alookup "evaluator_type" (metaRecord st' "voc_2007_train")) =
          .ok (some "pascal_voc")) ∧
      ((metaSet emptyState "voc_2007_train" "evaluator_type" "pascal_voc").bind
          (fun st' => metaSet st' "voc_2007_train" "evaluator_type" "pascal_voc") =
        metaSet emptyState "voc_2007_train" "evaluator_type" "pascal_voc") ∧
      ((metaSet emptyState "voc_2007_train" "evaluator_type" "pascal_voc").bind
          (fun st' => metaSet st' "voc_2007_train" "evaluator_type" "coco") =
        .error .MetadataConflict) := by
  have h := c3_metadata_conflict emptyState "voc_2007_train" "evaluator_type"
    "pascal_voc" "coco" rfl
  exact ⟨h.1, h.2.1, h.2.2 (by decide)⟩

/-- C6: for every name in the Pascal-VOC split table the inferred year is
2007 exactly when `"2007"` occurs in the name and 2012 otherwise; the
registered loader carries that year regardless of the directory fragment;
`"voc_2012_test"` infers 2012 and `"voc_2007_train"` infers 2007. -/
theorem c6_year_inference :
    (pascalVocSPLITS.all
        (fun e => ((inferYear e.1 == 2007) == strContains e.1 "2007") &&
          ((inferYear e.1 == 2012) == !strContains e.1 "2007")) = true) ∧
      ((register_all_pascal_voc "datasets" emptyState).map
          (fun st => pascalVocSPLITS.all
            (fun e => alookup e.1 st.catalog ==
              some (.pascalVoc (osPathJoin "datasets" e.2.1) e.2.2 (inferYear e.1)))) =
        .ok true) ∧
      inferYear "voc_2012_test" = 2012 ∧ inferYear "voc_2007_train" = 2007 := by
  refine ⟨by decide, by rw [register_all_pascal_voc_run]; rfl, by decide, by decide⟩

/-- C1: for every entry of the VOC_SBD panoptic table, the panoptic
registration step derives the paired instance name by replacing
`"_panoptic"` with `"_instance"` and, whenever that name's metadata
record lacks `image_root` or `json_file`, fails with
`MissingPairedMetadata` instead of proceeding. -/
theorem c1_missing_paired_metadata (e : String × String × String × String)
    (_hmem : e ∈ _PREDEFINED_SPLITS_VOC_SBD_PANOPTIC) (root : String) (st : RegState)
    (h : alookup "image_root" (metaRecord st (strReplace e.1 "_panoptic" "_instance")) = none ∨
      alookup "json_file" (metaRecord st (strReplace e.1 "_panoptic" "_instance")) = none) :
    registerVocSbdPanopticEntry root e.1 e.2.1 e.2.2.1 e.2.2.2 st =
      .error .MissingPairedMetadata := by
  rcases h with h | h
  · simp [registerVocSbdPanopticEntry, h]
  · cases h1 : alookup "image_root" (metaRecord st (strReplace e.1 "_panoptic" "_instance")) <;>
      simp [registerVocSbdPanopticEntry, h, h1]

/-- Witness for C1: registering `"voc_2012_train_panoptic"` on the empty
state (its paired `"voc_2012_train_instance"` record was never populated)
fails with `MissingPairedMetadata`. -/
theorem c1_missing_paired_metadata_witness :
    registerVocSbdPanopticEntry "datasets" "voc_2012_train_panoptic"
      "VOC_SBD/annotations/panoptic" "VOC_SBD/annotations/voc_2012_train_panoptic.json"
      "VOC_SBD/annotations/panoptic_stuff" emptyState = .error .MissingPairedMetadata :=
  c1_missing_paired_metadata
    ("voc_2012_train_panoptic", "VOC_SBD/annotations/panoptic",
      "VOC_SBD/annotations/voc_2012_train_panoptic.json",
      "VOC_SBD/annotations/panoptic_stuff")
    (by decide) "datasets" emptyState (Or.inl rfl)

/-- Counterexample to C4: the URI-scheme check is not applied to the
image-root fragment. An image fragment containing `"://"` is root-joined
by the registration loop body, not used verbatim. -/
theorem c4_uri_image_fragment_joined :
    strContains "s3://bucket/images" "://" = true ∧
      (registerCocoEntry "datasets" "flickr" "probe" "s3://bucket/images" "a.json"
          emptyState).map (fun st => alookup "probe" st.catalog) =
        .ok (some (.cocoInstances "datasets/a.json" "datasets/s3://bucket/images")) ∧
      ("datasets/s3://bucket/images" : String) ≠ "s3://bucket/images" :=
  ⟨by decide, by rfl, by decide⟩

/-- C4 (amended): in every coco-style registration loop body, the
conditional verbatim-URI rule is applied to the annotation-source (json)
fragment only; the image-root fragment is joined under the root
unconditionally. A json fragment with a scheme separator stays verbatim
while the same fragment in image-root position is root-joined. -/
theorem c4_scheme_check_json_only :
    (∀ root mkey key img js : String,
        registerCocoEntry root mkey key img js emptyState =
          .ok ⟨[(key, .cocoInstances (resolveJsonPath root js) (osPathJoin root img))],
               [(key, [("family", mkey), ("json_file", resolveJsonPath root js),
                       ("image_root", osPathJoin root img)])]⟩)
      ∧ resolveJsonPath "datasets" "s3://bucket/file.json" = "s3://bucket/file.json"
      ∧ resolveImagePath "datasets" "s3://bucket/file.json" = "datasets/s3://bucket/file.json" := by
  refine ⟨?_, by decide, by decide⟩
  intro root mkey key img js
  simp only [registerCocoEntry, resolveImagePath]
  rw [show getBuiltinMetadata mkey = [("family", mkey)] from rfl]
  rw [register_coco_instances_spec key mkey (resolveJsonPath root js) (osPathJoin root img)
    emptyState rfl rfl]
  rfl

/-- C5: every VOC_SBD panoptic split is registered under both strategies:
a "separated" binding under the derived `_separated` name whose record
has `semantic_root` set, and a "standard" binding under the split name
itself whose record has no `semantic_root` key, with two distinct names,
two distinct loaders, and the same underlying image root, panoptic root,
panoptic json and instances json. -/
theorem c5_dual_registration :
    (∀ root ir js : String,
      ((registerVocSbdPanopticEntry root "voc_2012_train_panoptic"
          "VOC_SBD/annotations/panoptic" "VOC_SBD/annotations/voc_2012_train_panoptic.json"
          "VOC_SBD/annotations/panoptic_stuff"
          (pairedOnlyState "voc_2012_train_instance" ir js)).map
        (fun st =>
          (alookup "voc_2012_train_panoptic_separated" st.catalog,
           alookup "voc_2012_train_panoptic" st.catalog,
           (alookup "semantic_root" (metaRecord st "voc_2012_train_panoptic_separated")).isSome,
           alookup "semantic_root" (metaRecord st "voc_2012_train_panoptic"))) =
        .ok (some (.panopticSeparated ir (osPathJoin root "VOC_SBD/annotations/panoptic")
                (osPathJoin root "VOC_SBD/annotations/voc_2012_train_panoptic.json")
                (osPathJoin root "VOC_SBD/annotations/panoptic_stuff") js),
              some (.panopticStandard ir (osPathJoin root "VOC_SBD/annotations/panoptic")
                (osPathJoin root "VOC_SBD/annotations/voc_2012_train_panoptic.json") js),
              true, none))
      ∧ ((registerVocSbdPanopticEntry root "voc_2012_val_panoptic"
          "VOC_SBD/annotations/panoptic" "VOC_SBD/annotations/voc_2012_val_panoptic.json"
          "VOC_SBD/annotations/panoptic_stuff"
          (pairedOnlyState "voc_2012_val_instance" ir js)).map
        (fun st =>
          (alookup "voc_2012_val_panoptic_separated" st.catalog,
           alookup "voc_2012_val_panoptic" st.catalog,
           (alookup "semantic_root" (metaRecord st "voc_2012_val_panoptic_separated")).isSome,
           alookup "semantic_root" (metaRecord st "voc_2012_val_panoptic"))) =
        .ok (some (.panopticSeparated ir (osPathJoin root "VOC_SBD/annotations/panoptic")
                (osPathJoin root "VOC_SBD/annotations/voc_2012_val_panoptic.json")
                (osPathJoin root "VOC_SBD/annotations/panoptic_stuff") js),
              some (.panopticStandard ir (osPathJoin root "VOC_SBD/annotations/panoptic")
                (osPathJoin root "VOC_SBD/annotations/voc_2012_val_panoptic.json") js),
              true, none))
      ∧ ((registerVocSbdPanopticEntry root "sbd_9118_panoptic"
          "VOC_SBD/annotations/panoptic" "VOC_SBD/annotations/sbd_9118_panoptic.json"
          "VOC_SBD/annotations/panoptic_stuff"
          (pairedOnlyState "sbd_9118_instance" ir js)).map
        (fun st =>
          (alookup "sbd_9118_panoptic_separated" st.catalog,
           alookup "sbd_9118_panoptic" st.catalog,
           (alookup "semantic_root" (metaRecord st "sbd_9118_panoptic_separated")).isSome,
           alookup "semantic_root" (metaRecord st "sbd_9118_panoptic"))) =
        .ok (some (.panopticSeparated ir (osPathJoin root "VOC_SBD/annotations/panoptic")
                (osPathJoin root "VOC_SBD/annotations/sbd_9118_panoptic.json")
                (osPathJoin root "VOC_SBD/annotations/panoptic_stuff") js),
              some (.panopticStandard ir (osPathJoin root "VOC_SBD/annotations/panoptic")
                (osPathJoin root "VOC_SBD/annotations/sbd_9118_panoptic.json") js),
              true, none)))
    ∧ (∀ ir pr pj sr js : String,
        Loader.panopticSeparated ir pr pj sr js ≠ .panopticStandard ir pr pj js)
    ∧ (("voc_2012_train_panoptic_separated" : String) ≠ "voc_2012_train_panoptic"
        ∧ ("voc_2012_val_panoptic_separated" : String) ≠ "voc_2012_val_panoptic"
        ∧ ("sbd_9118_panoptic_separated" : String) ≠ "sbd_9118_panoptic") := by
  refine ⟨fun root ir js => ⟨?_, ?_, ?_⟩, by simp, by decide⟩
  · rw [panopticEntryRunTrain]; rfl
  · rw [panopticEntryRunVal]; rfl
  · rw [panopticEntryRunSbd]; rfl

/-- C7: registering the Pascal-VOC family under any root binds
`"voc_2007_trainval"` to the Pascal-VOC loader at `root`-joined
`"VOC2007"`, split `"trainval"`, year 2007, and sets
`evaluator_type = "pascal_voc"` for every name of the split table. -/
theorem c7_pascal_voc_registration : ∀ root : String,
    ((register_all_pascal_voc root emptyState).map
        (fun st => alookup "voc_2007_trainval" st.catalog) =
      .ok (some (.pascalVoc (osPathJoin root "VOC2007") "trainval" 2007)))
    ∧ ((register_all_pascal_voc root emptyState).map
        (fun st => pascalVocSPLITS.all
          (fun e => alookup "evaluator_type" (metaRecord st e.1) == some "pascal_voc")) =
      .ok true) := by
  intro root
  constructor
  · rw [register_all_pascal_voc_run]; rfl
  · rw [register_all_pascal_voc_run]; rfl

/-- C8: the bootstrap resolves its root from `WSL_DATASETS`, defaulting
to `"datasets"` when unset, and runs the five family registration
routines once each with that root: it succeeds, producing exactly the 28
bindings of the five split tables, including one representative name from
each family. -/
theorem c8_bootstrap :
    bootstrapRoot (fun _ => none) = "datasets"
    ∧ (∀ v : String,
        bootstrapRoot (fun k => if k = "WSL_DATASETS" then some v else none) = v)
    ∧ (∀ env : String → Option String, bootstrap env = .ok (finalState (bootstrapRoot env)))
    ∧ (∀ env : String → Option String,
        (bootstrap env).map (fun st =>
          (st.catalog.length,
           (alookup "voc_2007_trainval" st.catalog).isSome,
           (alookup "flickr_voc" st.catalog).isSome,
           (alookup "voc_2007_train_pgt" st.catalog).isSome,
           (alookup "voc_2012_train_instance" st.catalog).isSome,
           (alookup "voc_2012_train_panoptic" st.catalog).isSome,
           (alookup "voc_2007_train_json" st.catalog).isSome)) =
          .ok (28, true, true, true, true, true, true)) := by
  refine ⟨rfl, fun v => rfl, bootstrap_run, fun env => ?_⟩
  rw [bootstrap_run]
  rfl

/-- C9: inside `register_all_voc_sbd` the whole instance loop runs before
the panoptic loop; every panoptic key's `_panoptic`→`_instance`
replacement is a key of the instance table; after the instance loop (run
at bootstrap, on the state left by the PGT family) every paired instance
record has `image_root` and `json_file` set, so the panoptic loop
succeeds. -/
theorem c9_instance_before_panoptic :
    (_PREDEFINED_SPLITS_VOC_SBD_PANOPTIC.all
        (fun e => (_PREDEFINED_SPLITS_VOC_SBD.map Prod.fst).contains
          (strReplace e.1 "_panoptic" "_instance")) = true)
    ∧ (∀ (root : String) (st : RegState), register_all_voc_sbd root st =
        (vocSbdInstancePhase root st).bind (vocSbdPanopticPhase root))
    ∧ (∀ root : String, vocSbdInstancePhase root (pgtState root) = .ok (sbdInstState root))
    ∧ (∀ root : String, _PREDEFINED_SPLITS_VOC_SBD_PANOPTIC.all
        (fun e =>
          (alookup "image_root" (metaRecord (sbdInstState root)
            (strReplace e.1 "_panoptic" "_instance"))).isSome &&
          (alookup "json_file" (metaRecord (sbdInstState root)
            (strReplace e.1 "_panoptic" "_instance"))).isSome) = true)
    ∧ (∀ root : String, vocSbdPanopticPhase root (sbdInstState root) = .ok (sbdState root)) :=
  ⟨by decide, fun root st => rfl, vocSbdInstancePhase_run, fun root => rfl,
    vocSbdPanopticPhase_run⟩

/-- C10: no stored annotation-source fragment of any builtin split table
contains `"://"`; a fragment without a scheme separator resolves to the
root-join; and at bootstrap every coco-style binding holds the root-joined
annotation path and the root-joined image path (the verbatim branch is
never taken, and image fragments are joined unconditionally). -/
theorem c10_json_always_joined :
    (allCocoJsonFragments.all (fun f => !strContains f "://") = true)
    ∧ (∀ root f : String, strContains f "://" = false →
        resolveJsonPath root f = osPathJoin root f)
    ∧ ((bootstrap (fun _ => none)).map (fun st =>
        allCocoEntries.all (fun e =>
          alookup e.1 st.catalog ==
            some (.cocoInstances (osPathJoin "datasets" e.2.2)
              (osPathJoin "datasets" e.2.1)))) = .ok true) := by
  refine ⟨by decide, fun root f h => ?_, ?_⟩
  · simp [resolveJsonPath, h]
  · rw [bootstrap_run]; rfl

/-- Witness for C10: the flickr json fragment has no scheme separator and
resolves to the root-join. -/
theorem c10_json_always_joined_witness :
    resolveJsonPath "datasets" "flickr_voc/images_d2.json" =
      osPathJoin "datasets" "flickr_voc/images_d2.json" :=
  c10_json_always_joined.2.1 "datasets" "flickr_voc/images_d2.json" (by decide)

end WSLDatasets
